import Mathlib

/-!
Shallow embedding of the chat engine of this repository
(src/src/hooks/useChatEngine.ts) together with the UI send guard
(ChatArea.handleSend).  The engine holds an ordered list of chat
sessions, an active-session pointer and a typing flag; responses are
produced by the keyword dispatcher generateMockResponse and appended
after a timer delay.  Timers are modelled as an explicit list of
pending tasks: sendMessage enqueues a task capturing the text and the
active session id at call time, and completePending is the body of the
setTimeout callback, run against whatever state holds when the delay
elapses.  Randomly generated ids and timestamps are passed in as
explicit parameters.  Spreadsheet cell values (any in the source) are
modelled as strings; only their list structure matters to the engine.
-/

/-- One uploaded spreadsheet dataset, as the engine consumes it
(interface UploadedFile, fields used by useChatEngine). -/
structure UploadedFile where
  name : String
  selectedSheet : String
  headers : List String
  data : List (List String)
  rowCount : Nat
deriving Repr, DecidableEq

/-- Inline table payload attached to an assistant message. -/
structure TablePayload where
  headers : List String
  rows : List (List String)
deriving Repr, DecidableEq

/-- One chat message (interface ChatMessage in ChatArea). -/
structure ChatMessage where
  id : String
  role : String
  content : String
  timestamp : Nat
  table : Option TablePayload := none
deriving Repr, DecidableEq

/-- One chat session (interface ChatSession in useChatEngine). -/
structure ChatSession where
  id : String
  name : String
  fileName : Option String := none
  timestamp : Nat
  messages : List ChatMessage
  file : Option UploadedFile
deriving Repr, DecidableEq

/-- Result of generateMockResponse: content plus optional table. -/
structure MockResponse where
  content : String
  table : Option TablePayload := none
deriving Repr, DecidableEq

/-- Substring test on character lists: does the haystack contain the
needle as a contiguous run?  Mirrors JavaScript String.prototype.includes. -/
def containsSub (needle : List Char) : List Char → Bool
  | [] => needle.isPrefixOf ([] : List Char)
  | c :: t => needle.isPrefixOf (c :: t) || containsSub needle t

/-- q.includes(pat) over Lean strings. -/
def strIncludes (s pat : String) : Bool :=
  containsSub pat.data s.data

/-- The apostrophe character, kept out of string literals. -/
def apos : String := String.singleton (Char.ofNat 39)

/-- question.toLowerCase(): character-wise lower-casing. -/
def toLowerCase (s : String) : String := ⟨s.data.map Char.toLower⟩

/-- s.endsWith(suffix) as a suffix test on the character list. -/
def endsWithStr (s suffix : String) : Bool := suffix.data.isSuffixOf s.data

/-- Drop the final n characters of a string. -/
def dropRightStr (s : String) (n : Nat) : String :=
  ⟨s.data.take (s.data.length - n)⟩

/-- input.trim(): strip whitespace from both ends. -/
def jsTrim (s : String) : String :=
  ⟨((s.data.dropWhile Char.isWhitespace).reverse.dropWhile
      Char.isWhitespace).reverse⟩

/-- Keyword guard of dispatcher rule 2: summary / overview / describe. -/
def wantsSummary (q : String) : Bool :=
  strIncludes q "summary" || strIncludes q "overview" || strIncludes q "describe"

/-- Keyword guard of dispatcher rule 3: column / header / field. -/
def wantsColumns (q : String) : Bool :=
  strIncludes q "column" || strIncludes q "header" || strIncludes q "field"

/-- Keyword guard of dispatcher rule 4: row / count / how many. -/
def wantsRows (q : String) : Bool :=
  strIncludes q "row" || strIncludes q "count" || strIncludes q "how many"

/-- Keyword guard of dispatcher rule 5: show / preview / sample / first. -/
def wantsPreview (q : String) : Bool :=
  strIncludes q "show" || strIncludes q "preview" || strIncludes q "sample" ||
    strIncludes q "first"

/-- Keyword guard of dispatcher rule 6: last. -/
def wantsLast (q : String) : Bool :=
  strIncludes q "last"

/-- Fixed prompt returned when no file is bound. -/
def noFileContent : String :=
  "Please upload an Excel file first so I can analyze your data. Click the upload button in the sidebar or the attachment icon below to get started!"

/-- Content of the summary branch (rule 2). -/
def summaryContent (file : UploadedFile) : String :=
  "Here" ++ apos ++ "s a summary of your data from **" ++ file.name ++
    "** (Sheet: " ++ file.selectedSheet ++
    "):\n\n📊 **Dataset Overview**\n• Total Rows: " ++
    toString file.rowCount ++ "\n• Total Columns: " ++
    toString file.headers.length ++ "\n• Columns: " ++
    String.intercalate ", " file.headers ++
    "\n\nThe data appears to be well-structured. You can ask me specific questions about any column or request calculations!"

/-- Content of the columns branch (rule 3). -/
def columnsContent (file : UploadedFile) : String :=
  "Your dataset contains **" ++ toString file.headers.length ++
    " columns**:\n\n" ++
    String.intercalate "\n"
      (file.headers.enum.map (fun p => toString (p.1 + 1) ++ ". **" ++ p.2 ++ "**")) ++
    "\n\nWould you like me to analyze any specific column?"

/-- Content of the row-count branch (rule 4). -/
def rowsContent (file : UploadedFile) : String :=
  "Your dataset contains **" ++ toString file.rowCount ++
    " rows** of data across **" ++ toString file.headers.length ++
    " columns** in the \"" ++ file.selectedSheet ++ "\" sheet."

/-- Content of the preview branch (rule 5). -/
def previewContent (file : UploadedFile) : String :=
  "Here" ++ apos ++ "s a preview of the first " ++
    toString (min 5 file.data.length) ++ " rows from your data:"

/-- Content of the last-rows branch (rule 6). -/
def lastContent (file : UploadedFile) : String :=
  "Here are the last " ++ toString (min 5 file.data.length) ++
    " rows from your data:"

/-- Content of the default branch (rule 7). -/
def defaultContent (file : UploadedFile) : String :=
  "Great question about your data! Based on the \"" ++ file.selectedSheet ++
    "\" sheet in **" ++ file.name ++
    "**, here" ++ apos ++ "s what I found:\n\n📋 Your dataset has **" ++
    toString file.rowCount ++ " records** with columns: " ++
    String.intercalate ", " (file.headers.take 5) ++
    (if file.headers.length > 5
      then " and " ++ toString (file.headers.length - 5) ++ " more"
      else "") ++
    ".\n\nTry asking me to:\n• \"Show me a summary\"\n• \"Preview the first rows\"\n• \"What columns are available?\"\n• \"How many rows are there?\""

/-- generateMockResponse from useChatEngine: classify the lower-cased
question by keyword, first match wins, and produce content plus an
optional table. -/
def generateMockResponse (question : String) (file : Option UploadedFile) :
    MockResponse :=
  match file with
  | none => { content := noFileContent }
  | some f =>
    let q := toLowerCase question
    if wantsSummary q then
      { content := summaryContent f }
    else if wantsColumns q then
      { content := columnsContent f }
    else if wantsRows q then
      { content := rowsContent f }
    else if wantsPreview q then
      { content := previewContent f
        table := some { headers := f.headers, rows := f.data.take 5 } }
    else if wantsLast q then
      { content := lastContent f
        table := some { headers := f.headers
                        rows := f.data.drop (f.data.length - 5) } }
    else
      { content := defaultContent f }

/-- A scheduled setTimeout callback from sendMessage: the message text
and the active session id captured when the timer was armed. -/
structure PendingTask where
  targetId : String
  content : String
deriving Repr, DecidableEq

/-- State of useChatEngine: the session list, the active session id,
the isTyping flag, and the queue of armed timers. -/
structure EngineState where
  sessions : List ChatSession
  activeSessionId : String
  isTyping : Bool := false
  pending : List PendingTask := []
deriving Repr, DecidableEq

/-- Initial state of the hook: one default Welcome Chat session. -/
def initialState : EngineState :=
  { sessions := [{ id := "default", name := "Welcome Chat", timestamp := 0,
                   messages := [], file := none }]
    activeSessionId := "default" }

/-- updateSession: map the updater over the session with the given id. -/
def updateSession (id : String) (u : ChatSession → ChatSession)
    (st : EngineState) : EngineState :=
  { st with sessions := st.sessions.map fun s => if s.id == id then u s else s }

/-- createNewChat: prepend a fresh empty session and make it active.
The generated id and current time are passed in explicitly. -/
def createNewChat (newId : String) (now : Nat) (st : EngineState) :
    EngineState :=
  { st with
    sessions := { id := newId, name := "New Chat", timestamp := now,
                  messages := [], file := none } :: st.sessions
    activeSessionId := newId }

/-- setActiveSessionId: the raw state setter exposed by the hook. -/
def setActiveSessionId (id : String) (st : EngineState) : EngineState :=
  { st with activeSessionId := id }

/-- deleteSession: drop the session with the given id; if nothing is
left, install a fresh fallback session and activate it; if the deleted
session was active, activate the first remaining session. -/
def deleteSession (id : String) (freshId : String) (now : Nat)
    (st : EngineState) : EngineState :=
  let filtered := st.sessions.filter fun s => !(s.id == id)
  match filtered with
  | [] =>
    { st with
      sessions := [{ id := freshId, name := "New Chat", timestamp := now,
                     messages := [], file := none }]
      activeSessionId := freshId }
  | f :: _ =>
    if st.activeSessionId == id then
      { st with sessions := filtered, activeSessionId := f.id }
    else
      { st with sessions := filtered }

/-- Strip a trailing .xlsx / .xls / .csv extension, case-insensitively:
the replace of /\.(xlsx|xls|csv)$/i with the empty string in setFile. -/
def stripSpreadsheetExt (name : String) : String :=
  let lower := toLowerCase name
  if endsWithStr lower ".xlsx" then dropRightStr name 5
  else if endsWithStr lower ".xls" then dropRightStr name 4
  else if endsWithStr lower ".csv" then dropRightStr name 4
  else name

/-- Content of the system message appended by setFile. -/
def fileLoadedContent (file : UploadedFile) : String :=
  "📁 **" ++ file.name ++ "** loaded successfully!\n\n• Sheet: **" ++
    file.selectedSheet ++ "**\n• Rows: **" ++ toString file.rowCount ++
    "**\n• Columns: **" ++ toString file.headers.length ++ "** (" ++
    String.intercalate ", " (file.headers.take 4) ++
    (if file.headers.length > 4 then "..." else "") ++
    ")\n\nI" ++ apos ++
    "m ready to analyze your data. What would you like to know?"

/-- The system message appended by setFile. -/
def fileLoadedMsg (file : UploadedFile) (msgId : String) (now : Nat) :
    ChatMessage :=
  { id := msgId, role := "ai", content := fileLoadedContent file,
    timestamp := now }

/-- The per-session updater applied by setFile to the active session. -/
def setFileUpdater (file : UploadedFile) (msgId : String) (now : Nat)
    (s : ChatSession) : ChatSession :=
  { s with
    messages := s.messages ++ [fileLoadedMsg file msgId now]
    file := some file
    fileName := some file.name
    name := stripSpreadsheetExt file.name }

/-- setFile: bind the dataset to the active session, rename it from the
file name and append the system message. -/
def setFile (file : UploadedFile) (msgId : String) (now : Nat)
    (st : EngineState) : EngineState :=
  updateSession st.activeSessionId (setFileUpdater file msgId now) st

/-- sendMessage: append the user message to the active session, set
isTyping, and arm a timer that captures the text and the active session
id as of this call. -/
def sendMessage (content : String) (msgId : String) (now : Nat)
    (st : EngineState) : EngineState :=
  let userMsg : ChatMessage :=
    { id := msgId, role := "user", content := content, timestamp := now }
  let st1 := updateSession st.activeSessionId
    (fun s => { s with messages := s.messages ++ [userMsg] }) st
  { st1 with
    isTyping := true
    pending := st1.pending ++ [{ targetId := st.activeSessionId
                                 content := content }] }

/-- The assistant message built when a pending task fires, from the
dispatcher response computed at completion time. -/
def completionMsg (resp : MockResponse) (msgId : String) (now : Nat) :
    ChatMessage :=
  { id := msgId, role := "ai", content := resp.content, timestamp := now,
    table := resp.table }

/-- completePending: the body of the setTimeout callback in sendMessage,
run against the state current when the delay elapses.  It re-reads the
file bound to the captured session id now, computes the response, and
appends the assistant message to that session; it also clears isTyping
and retires the task. -/
def completePending (task : PendingTask) (msgId : String) (now : Nat)
    (st : EngineState) : EngineState :=
  let sessionNow := st.sessions.find? fun s => s.id == task.targetId
  let fileNow := sessionNow.bind fun s => s.file
  let resp := generateMockResponse task.content fileNow
  let aiMsg := completionMsg resp msgId now
  { st with
    sessions := st.sessions.map fun s =>
      if s.id == task.targetId
      then { s with messages := s.messages ++ [aiMsg] }
      else s
    isTyping := false
    pending := st.pending.erase task }

/-- handleSend from ChatArea: trim the input; if nothing is left, do
not call sendMessage at all; otherwise send the trimmed text.  The
input-box bookkeeping of the component is UI-local and not part of the
engine state. -/
def handleSend (input : String) (msgId : String) (now : Nat)
    (st : EngineState) : EngineState :=
  let trimmed := jsTrim input
  if trimmed == "" then st else sendMessage trimmed msgId now st

/-! ### Basic lemmas about the string and list helpers -/

/-- containsSub decides the contiguous-substring (infix) relation. -/
theorem containsSub_isInfix_iff (needle hay : List Char) :
    containsSub needle hay = true ↔ needle <:+: hay := by
  induction hay with
  | nil =>
    simp [containsSub, List.isPrefixOf_iff_prefix]
  | cons c t ih =>
    simp [containsSub, List.isPrefixOf_iff_prefix, ih, List.infix_cons_iff]

/-- strIncludes decides the infix relation on the character lists. -/
theorem strIncludes_isInfix_iff (s pat : String) :
    strIncludes s pat = true ↔ pat.data <:+: s.data :=
  containsSub_isInfix_iff pat.data s.data

/-- Every string contains itself. -/
theorem strIncludes_refl (s : String) : strIncludes s s = true :=
  (strIncludes_isInfix_iff s s).mpr (List.infix_refl s.data)

/-- Containment survives appending on the right. -/
theorem strIncludes_append_left (x y pat : String)
    (h : strIncludes x pat = true) : strIncludes (x ++ y) pat = true := by
  rw [strIncludes_isInfix_iff] at h ⊢
  rw [String.data_append]
  exact h.trans (List.prefix_append x.data y.data).isInfix

/-- Containment survives appending on the left. -/
theorem strIncludes_append_right (x y pat : String)
    (h : strIncludes y pat = true) : strIncludes (x ++ y) pat = true := by
  rw [strIncludes_isInfix_iff] at h ⊢
  rw [String.data_append]
  exact h.trans (List.suffix_append x.data y.data).isInfix

/-- Mapping a function that moves no element is the identity. -/
theorem list_map_self {α : Type} (l : List α) (f : α → α)
    (h : ∀ x ∈ l, f x = x) : l.map f = l := by
  induction l with
  | nil => rfl
  | cons a t ih =>
    simp only [List.map_cons, h a (List.mem_cons_self a t)]
    rw [ih fun x hx => h x (List.mem_cons_of_mem a hx)]

/-- An update keyed on the session id keeps the id projection of the
session list unchanged, as long as the updater preserves ids. -/
theorem map_update_ids (l : List ChatSession) (tid : String)
    (u : ChatSession → ChatSession) (hu : ∀ s, (u s).id = s.id) :
    ((l.map fun s => if s.id == tid then u s else s).map fun s => s.id)
      = l.map fun s => s.id := by
  rw [List.map_map]
  apply List.map_congr_left
  intro s _
  by_cases h : (s.id == tid) = true
  · show (if (s.id == tid) = true then u s else s).id = s.id
    rw [if_pos h]
    exact hu s
  · show (if (s.id == tid) = true then u s else s).id = s.id
    rw [if_neg h]

/-! ### The session-store invariant -/

/-- The session-store invariant: the collection is nonempty, session
ids are pairwise distinct, and the active id names one of the sessions. -/
def EngineInv (st : EngineState) : Prop :=
  st.sessions ≠ [] ∧ (st.sessions.map fun s => s.id).Nodup ∧
    st.activeSessionId ∈ st.sessions.map fun s => s.id

instance (st : EngineState) : Decidable (EngineInv st) := by
  unfold EngineInv
  infer_instance

/-- States with the same id projection and the same active id satisfy
the invariant together. -/
theorem engineInv_of_ids_eq (st st' : EngineState)
    (hids : (st'.sessions.map fun s => s.id) = st.sessions.map fun s => s.id)
    (hact : st'.activeSessionId = st.activeSessionId)
    (h : EngineInv st) : EngineInv st' := by
  obtain ⟨h1, h2, h3⟩ := h
  refine ⟨?_, ?_, ?_⟩
  · intro hnil
    apply h1
    have : (st.sessions.map fun s => s.id) = [] := by
      rw [← hids, hnil]
      rfl
    exact List.map_eq_nil_iff.mp this
  · rw [hids]
    exact h2
  · rw [hact, hids]
    exact h3

/-- createNewChat preserves the invariant when the generated id is
fresh. -/
theorem engineInv_createNewChat (st : EngineState) (newId : String)
    (now : Nat) (h : EngineInv st)
    (hfresh : newId ∉ st.sessions.map fun s => s.id) :
    EngineInv (createNewChat newId now st) := by
  obtain ⟨h1, h2, h3⟩ := h
  refine ⟨by simp [createNewChat], ?_, ?_⟩
  · simp only [createNewChat, List.map_cons]
    exact List.nodup_cons.mpr ⟨hfresh, h2⟩
  · simp [createNewChat]

/-- setActiveSessionId preserves the invariant when the id exists. -/
theorem engineInv_setActiveSessionId (st : EngineState) (selId : String)
    (h : EngineInv st) (hsel : selId ∈ st.sessions.map fun s => s.id) :
    EngineInv (setActiveSessionId selId st) :=
  ⟨h.1, h.2.1, hsel⟩

/-- deleteSession preserves the invariant for every argument. -/
theorem engineInv_deleteSession (st : EngineState) (id freshId : String)
    (now : Nat) (h : EngineInv st) :
    EngineInv (deleteSession id freshId now st) := by
  obtain ⟨h1, h2, h3⟩ := h
  cases hfil : st.sessions.filter (fun s => !(s.id == id)) with
  | nil =>
    simp only [deleteSession, hfil]
    exact ⟨by simp, by simp, by simp⟩
  | cons f rest =>
    have hsub : List.Sublist ((f :: rest).map fun s => s.id)
        (st.sessions.map fun s => s.id) := by
      rw [← hfil]
      exact (List.filter_sublist st.sessions).map _
    by_cases hact : (st.activeSessionId == id) = true
    · simp only [deleteSession, hfil, if_pos hact]
      refine ⟨by simp, h2.sublist hsub, ?_⟩
      simp
    · simp only [deleteSession, hfil, if_neg hact]
      refine ⟨by simp, h2.sublist hsub, ?_⟩
      have hne : st.activeSessionId ≠ id := by
        simpa using hact
      obtain ⟨s, hs, hsid⟩ := List.mem_map.mp h3
      have hmem : s ∈ st.sessions.filter (fun s => !(s.id == id)) :=
        List.mem_filter.mpr ⟨hs, by simp [hsid, hne]⟩
      rw [hfil] at hmem
      exact List.mem_map.mpr ⟨s, hmem, hsid⟩

/-- updateSession preserves the invariant whenever the updater keeps
the session id. -/
theorem engineInv_updateSession (st : EngineState) (tid : String)
    (u : ChatSession → ChatSession) (hu : ∀ s, (u s).id = s.id)
    (h : EngineInv st) : EngineInv (updateSession tid u st) :=
  engineInv_of_ids_eq st _ (map_update_ids st.sessions tid u hu) rfl h

/-- setFile preserves the invariant. -/
theorem engineInv_setFile (st : EngineState) (file : UploadedFile)
    (msgId : String) (now : Nat) (h : EngineInv st) :
    EngineInv (setFile file msgId now st) :=
  engineInv_updateSession st st.activeSessionId _ (fun _ => rfl) h

/-- sendMessage preserves the invariant. -/
theorem engineInv_sendMessage (st : EngineState) (text msgId : String)
    (now : Nat) (h : EngineInv st) :
    EngineInv (sendMessage text msgId now st) := by
  refine engineInv_of_ids_eq st _ ?_ rfl h
  exact map_update_ids st.sessions st.activeSessionId _ (fun _ => rfl)

/-- completePending preserves the invariant. -/
theorem engineInv_completePending (st : EngineState) (task : PendingTask)
    (msgId : String) (now : Nat) (h : EngineInv st) :
    EngineInv (completePending task msgId now st) := by
  refine engineInv_of_ids_eq st _ ?_ rfl h
  exact map_update_ids st.sessions task.targetId _ (fun _ => rfl)

/-! ### Concrete fixtures used by witnesses -/

set_option maxRecDepth 100000

/-- The default session installed by the initial state. -/
def welcomeSession : ChatSession :=
  { id := "default", name := "Welcome Chat", timestamp := 0,
    messages := [], file := none }

/-- A small concrete dataset with six headers and three rows. -/
def sampleFile : UploadedFile :=
  { name := "Q3-Report.XLSX", selectedSheet := "Sheet1",
    headers := ["A", "B", "C", "D", "E", "F"],
    data := [["r1"], ["r2"], ["r3"]], rowCount := 3 }

/-- Intermediate state of the interleaving scenario: send "x" on the
default session, then create session B, making B active. -/
def stMidW : EngineState :=
  createNewChat "B" 1 (sendMessage "x" "m1" 0 initialState)

/-- The session the completion step finds for id "default" in stMidW. -/
def s0W : ChatSession :=
  { id := "default", name := "Welcome Chat", timestamp := 0,
    messages := [{ id := "m1", role := "user", content := "x",
                   timestamp := 0 }],
    file := none }

/-! ### Claims -/

/-- C1: the timer armed by sendMessage captures the active session id
at call time; when it fires, the assistant message is appended to the
session with that captured id in the completion-time state (whatever
the active session is by then), and the response is computed from the
file bound to that session at completion time. -/
theorem sendMessage_completion_targets_call_time_session
    (st stMid : EngineState) (text msgId msgId2 : String) (n n2 : Nat)
    (s0 : ChatSession)
    (hfind : stMid.sessions.find? (fun s => s.id == st.activeSessionId)
      = some s0) :
    (sendMessage text msgId n st).pending
        = st.pending ++ [{ targetId := st.activeSessionId, content := text }]
    ∧ (completePending { targetId := st.activeSessionId, content := text }
          msgId2 n2 stMid).sessions
        = stMid.sessions.map fun s =>
            if s.id == st.activeSessionId
            then { s with messages := s.messages ++
                [completionMsg (generateMockResponse text s0.file) msgId2 n2] }
            else s := by
  constructor
  · rfl
  · simp only [completePending, hfind]
    rfl

/-- C1 witness: the interleaving scenario of the spec, with session B
created during the delay; the reply lands in the default session. -/
theorem sendMessage_completion_targets_call_time_session_witness :
    (sendMessage "x" "m1" 0 initialState).pending
        = initialState.pending ++
            [{ targetId := initialState.activeSessionId, content := "x" }]
    ∧ (completePending
          { targetId := initialState.activeSessionId, content := "x" }
          "m2" 2 stMidW).sessions
        = stMidW.sessions.map fun s =>
            if s.id == initialState.activeSessionId
            then { s with messages := s.messages ++
                [completionMsg (generateMockResponse "x" s0W.file) "m2" 2] }
            else s :=
  sendMessage_completion_targets_call_time_session initialState stMidW
    "x" "m1" "m2" 0 2 s0W (by decide)

/-- C2: every operation keeps the session collection nonempty with
exactly one active session (the invariant EngineInv), given fresh
generated ids and a known id for selection; and deleting the only
remaining session leaves exactly one fresh default session, with no
bound file, which is active. -/
theorem sessionStore_invariant_and_delete_last
    (st : EngineState) (h : EngineInv st)
    (id selId freshId newId msgId text : String) (now n2 : Nat)
    (file : UploadedFile) (task : PendingTask)
    (hfresh : newId ∉ st.sessions.map fun s => s.id)
    (hsel : selId ∈ st.sessions.map fun s => s.id) :
    EngineInv (createNewChat newId now st)
    ∧ EngineInv (setActiveSessionId selId st)
    ∧ EngineInv (deleteSession id freshId now st)
    ∧ EngineInv (setFile file msgId now st)
    ∧ EngineInv (sendMessage text msgId now st)
    ∧ EngineInv (completePending task msgId n2 st)
    ∧ ∀ s0 : ChatSession, st.sessions = [s0] →
        (deleteSession s0.id freshId now st).sessions
          = [{ id := freshId, name := "New Chat", timestamp := now,
               messages := [], file := none }]
        ∧ (deleteSession s0.id freshId now st).activeSessionId = freshId := by
  refine ⟨engineInv_createNewChat st newId now h hfresh,
    engineInv_setActiveSessionId st selId h hsel,
    engineInv_deleteSession st id freshId now h,
    engineInv_setFile st file msgId now h,
    engineInv_sendMessage st text msgId now h,
    engineInv_completePending st task msgId n2 h, ?_⟩
  intro s0 hs0
  constructor <;> simp [deleteSession, hs0]

/-- C2 witness: the invariant holds after each operation on the
initial state, and deleting the lone default session installs a fresh
active default session. -/
theorem sessionStore_invariant_and_delete_last_witness :
    (deleteSession "default" "f1" 7 initialState).sessions
      = [{ id := "f1", name := "New Chat", timestamp := 7,
           messages := [], file := none }]
    ∧ (deleteSession "default" "f1" 7 initialState).activeSessionId
        = "f1" :=
  (sessionStore_invariant_and_delete_last initialState (by decide)
    "default" "default" "f1" "n1" "m" "t" 7 0 sampleFile
    { targetId := "default", content := "t" }
    (by decide) (by decide)).2.2.2.2.2.2 welcomeSession rfl

/-- C3: the dispatcher evaluates its seven rules in fixed precedence
order over the lower-cased question and only the first matching branch
fires; in particular a question containing both "summary" and
"preview" classifies as the summary branch. -/
theorem generateMockResponse_precedence (f : UploadedFile) (q : String) :
    generateMockResponse q none = { content := noFileContent, table := none }
    ∧ (wantsSummary (toLowerCase q) = true →
        generateMockResponse q (some f)
          = { content := summaryContent f, table := none })
    ∧ (wantsSummary (toLowerCase q) = false →
        wantsColumns (toLowerCase q) = true →
        generateMockResponse q (some f)
          = { content := columnsContent f, table := none })
    ∧ (wantsSummary (toLowerCase q) = false →
        wantsColumns (toLowerCase q) = false →
        wantsRows (toLowerCase q) = true →
        generateMockResponse q (some f)
          = { content := rowsContent f, table := none })
    ∧ (wantsSummary (toLowerCase q) = false →
        wantsColumns (toLowerCase q) = false →
        wantsRows (toLowerCase q) = false →
        wantsPreview (toLowerCase q) = true →
        generateMockResponse q (some f)
          = { content := previewContent f
              table := some { headers := f.headers
                              rows := f.data.take 5 } })
    ∧ (wantsSummary (toLowerCase q) = false →
        wantsColumns (toLowerCase q) = false →
        wantsRows (toLowerCase q) = false →
        wantsPreview (toLowerCase q) = false →
        wantsLast (toLowerCase q) = true →
        generateMockResponse q (some f)
          = { content := lastContent f
              table := some { headers := f.headers
                              rows := f.data.drop (f.data.length - 5) } })
    ∧ (wantsSummary (toLowerCase q) = false →
        wantsColumns (toLowerCase q) = false →
        wantsRows (toLowerCase q) = false →
        wantsPreview (toLowerCase q) = false →
        wantsLast (toLowerCase q) = false →
        generateMockResponse q (some f)
          = { content := defaultContent f, table := none })
    ∧ (strIncludes (toLowerCase q) "summary" = true →
        strIncludes (toLowerCase q) "preview" = true →
        generateMockResponse q (some f)
          = { content := summaryContent f, table := none }) := by
  refine ⟨rfl, ?_, ?_, ?_, ?_, ?_, ?_, ?_⟩
  · intro h1
    simp [generateMockResponse, h1]
  · intro h1 h2
    simp [generateMockResponse, h1, h2]
  · intro h1 h2 h3
    simp [generateMockResponse, h1, h2, h3]
  · intro h1 h2 h3 h4
    simp [generateMockResponse, h1, h2, h3, h4]
  · intro h1 h2 h3 h4 h5
    simp [generateMockResponse, h1, h2, h3, h4, h5]
  · intro h1 h2 h3 h4 h5
    simp [generateMockResponse, h1, h2, h3, h4, h5]
  · intro hs _
    have h1 : wantsSummary (toLowerCase q) = true := by
      simp [wantsSummary, hs]
    simp [generateMockResponse, h1]

/-- C3 witness: "summary preview" matches both rule 2 and rule 5 and
is answered by the summary branch with no table. -/
theorem generateMockResponse_precedence_witness :
    generateMockResponse "summary preview" (some sampleFile)
      = { content := summaryContent sampleFile, table := none } :=
  (generateMockResponse_precedence sampleFile
    "summary preview").2.2.2.2.2.2.2 (by decide) (by decide)

/-- C5: under the preview branch the table rows are exactly the first
min(5, rowCount) rows with the dataset headers, under the last branch
exactly the last min(5, rowCount) rows in source order, and with three
rows both branches return all three rows.  The rowCount field is tied
to the actual row list by hypothesis, as the data model requires. -/
theorem preview_and_last_row_slicing (f : UploadedFile) (q : String)
    (hrc : f.rowCount = f.data.length)
    (h1 : wantsSummary (toLowerCase q) = false)
    (h2 : wantsColumns (toLowerCase q) = false)
    (h3 : wantsRows (toLowerCase q) = false) :
    (wantsPreview (toLowerCase q) = true →
      (generateMockResponse q (some f)).table
          = some { headers := f.headers, rows := f.data.take 5 }
      ∧ f.data.take 5 = f.data.take (min 5 f.rowCount)
      ∧ (f.rowCount = 3 →
          (generateMockResponse q (some f)).table
            = some { headers := f.headers, rows := f.data }))
    ∧ (wantsPreview (toLowerCase q) = false →
      wantsLast (toLowerCase q) = true →
      (generateMockResponse q (some f)).table
          = some { headers := f.headers
                   rows := f.data.drop (f.data.length - 5) }
      ∧ f.data.drop (f.data.length - 5)
          = f.data.drop (f.data.length - min 5 f.rowCount)
      ∧ (f.rowCount = 3 →
          (generateMockResponse q (some f)).table
            = some { headers := f.headers, rows := f.data })) := by
  constructor
  · intro hp
    have htab : (generateMockResponse q (some f)).table
        = some { headers := f.headers, rows := f.data.take 5 } := by
      simp [generateMockResponse, h1, h2, h3, hp]
    refine ⟨htab, ?_, ?_⟩
    · rcases Nat.le_total 5 f.data.length with hle | hle
      · rw [hrc, Nat.min_eq_left hle]
      · rw [hrc, Nat.min_eq_right hle, List.take_length,
          List.take_of_length_le hle]
    · intro h3eq
      have hlen : f.data.length = 3 := by rw [← hrc]; exact h3eq
      rw [htab, List.take_of_length_le (by omega)]
  · intro hp hl
    have htab : (generateMockResponse q (some f)).table
        = some { headers := f.headers
                 rows := f.data.drop (f.data.length - 5) } := by
      simp [generateMockResponse, h1, h2, h3, hp, hl]
    refine ⟨htab, ?_, ?_⟩
    · rcases Nat.le_total 5 f.data.length with hle | hle
      · rw [hrc, Nat.min_eq_left hle]
      · rw [hrc, Nat.min_eq_right hle, Nat.sub_self,
          Nat.sub_eq_zero_of_le hle]
    · intro h3eq
      have hlen : f.data.length = 3 := by rw [← hrc]; exact h3eq
      have hz : f.data.length - 5 = 0 := by omega
      rw [htab, hz, List.drop_zero]

/-- C5 witness: on the three-row sample dataset a "preview" question
returns all three rows. -/
theorem preview_and_last_row_slicing_witness :
    (generateMockResponse "preview" (some sampleFile)).table
      = some { headers := sampleFile.headers, rows := sampleFile.data } :=
  ((preview_and_last_row_slicing sampleFile "preview" (by decide)
    (by decide) (by decide) (by decide)).1 (by decide)).2.2 (by decide)

/-- C9: the dispatcher is a deterministic function of its two
arguments: identical arguments give identical output.  Freedom from
mutation is intrinsic here: the embedding is a pure function, exactly
as the source computes a value from its arguments without writing to
them. -/
theorem generateMockResponse_deterministic (q1 q2 : String)
    (d1 d2 : Option UploadedFile) (hq : q1 = q2) (hd : d1 = d2) :
    generateMockResponse q1 d1 = generateMockResponse q2 d2 := by
  rw [hq, hd]

/-- C9 witness: two identical concrete calls agree. -/
theorem generateMockResponse_deterministic_witness :
    generateMockResponse "show" (some sampleFile)
      = generateMockResponse "show" (some sampleFile) :=
  generateMockResponse_deterministic "show" "show" (some sampleFile)
    (some sampleFile) rfl rfl

/-- C4 counterexample: calling the store sendMessage directly with the
empty string is not a no-op: the session collection changes (an empty
user message is appended) and a response timer is armed. -/
theorem sendMessage_empty_not_noop :
    (sendMessage "" "m1" 0 initialState).sessions ≠ initialState.sessions
    ∧ (sendMessage "" "m1" 0 initialState).pending ≠ [] := by
  constructor <;> decide

/-- C4 (amended): the emptiness guard lives in the UI layer, not the
store: handleSend trims the input and, when nothing remains, returns
without calling sendMessage, so the whole state is unchanged. -/
theorem handleSend_whitespace_noop (input msgId : String) (now : Nat)
    (st : EngineState) (h : jsTrim input = "") :
    handleSend input msgId now st = st := by
  simp [handleSend, h]

/-- C4 witness: whitespace-only input leaves the initial state as is. -/
theorem handleSend_whitespace_noop_witness :
    handleSend "   " "m1" 0 initialState = initialState :=
  handleSend_whitespace_noop "   " "m1" 0 initialState (by decide)

/-- C6: when the captured target session no longer exists at
completion time, the assistant-message append is a no-op: the session
list is returned unchanged. -/
theorem completePending_deleted_target_noop (task : PendingTask)
    (msgId : String) (now : Nat) (st : EngineState)
    (h : ∀ s ∈ st.sessions, s.id ≠ task.targetId) :
    (completePending task msgId now st).sessions = st.sessions := by
  simp only [completePending]
  apply list_map_self
  intro s hs
  have hne : (s.id == task.targetId) = false :=
    beq_eq_false_iff_ne.mpr (h s hs)
  simp [hne]

/-- C6 witness: completing a task whose target id matches no session
leaves the session list of the initial state unchanged. -/
theorem completePending_deleted_target_noop_witness :
    (completePending { targetId := "ghost", content := "x" } "m1" 0
        initialState).sessions = initialState.sessions :=
  completePending_deleted_target_noop
    { targetId := "ghost", content := "x" } "m1" 0 initialState (by decide)

/-- C8: deleting the active session while at least one other session
remains promotes the first remaining session (in current order) to
active. -/
theorem deleteSession_active_promotes_first (st : EngineState)
    (id freshId : String) (now : Nat) (f : ChatSession)
    (rest : List ChatSession)
    (hact : st.activeSessionId = id)
    (hfil : st.sessions.filter (fun s => !(s.id == id)) = f :: rest) :
    (deleteSession id freshId now st).activeSessionId = f.id
    ∧ (deleteSession id freshId now st).sessions = f :: rest := by
  have hbeq : (st.activeSessionId == id) = true := by simp [hact]
  constructor <;> simp [deleteSession, hfil, hbeq]

/-- State with a second session B prepended and active. -/
def stW8 : EngineState := createNewChat "B" 1 initialState

/-- C8 witness: deleting active session B falls back to the first
remaining session, the default one. -/
theorem deleteSession_active_promotes_first_witness :
    (deleteSession "B" "f1" 2 stW8).activeSessionId = "default"
    ∧ (deleteSession "B" "f1" 2 stW8).sessions = [welcomeSession] :=
  deleteSession_active_promotes_first stW8 "B" "f1" 2 welcomeSession []
    rfl (by decide)

/-- C10: deleting an id that names no session leaves the whole state,
session collection and active id included, unchanged. -/
theorem deleteSession_absent_id_noop (st : EngineState)
    (id freshId : String) (now : Nat)
    (hne : st.sessions ≠ [])
    (habs : ∀ s ∈ st.sessions, s.id ≠ id)
    (hact : st.activeSessionId ∈ st.sessions.map fun s => s.id) :
    deleteSession id freshId now st = st := by
  have hfil : st.sessions.filter (fun s => !(s.id == id)) = st.sessions := by
    apply List.filter_eq_self.mpr
    intro s hs
    simpa using habs s hs
  have hactne : st.activeSessionId ≠ id := by
    obtain ⟨s, hs, hsid⟩ := List.mem_map.mp hact
    rw [← hsid]
    exact habs s hs
  have hbeq : (st.activeSessionId == id) = false :=
    beq_eq_false_iff_ne.mpr hactne
  cases hsess : st.sessions with
  | nil => exact absurd hsess hne
  | cons a l =>
    rw [hsess] at hfil
    simp only [deleteSession, hsess, hfil, hbeq]
    simp only [← hsess]
    rfl

/-- C10 witness: deleting an unknown id from the initial state changes
nothing. -/
theorem deleteSession_absent_id_noop_witness :
    deleteSession "ghost" "f1" 3 initialState = initialState :=
  deleteSession_absent_id_noop initialState "ghost" "f1" 3 (by decide)
    (by decide) (by decide)

/-- C7: setFile rewrites exactly the sessions carrying the active id,
binding the dataset, renaming the session to the file name with a
trailing .xlsx/.xls/.csv extension stripped case-insensitively, and
appending exactly one assistant message whose content contains the
file name, the selected sheet, the row count and the first four
headers, with an ellipsis marker exactly when more than four headers
exist; Q3-Report.XLSX strips to Q3-Report. -/
theorem setFile_binds_renames_and_summarizes (file : UploadedFile)
    (msgId : String) (now : Nat) (st : EngineState) :
    (setFile file msgId now st).sessions
        = st.sessions.map (fun s =>
            if s.id == st.activeSessionId
            then setFileUpdater file msgId now s else s)
    ∧ (∀ s : ChatSession,
        (setFileUpdater file msgId now s).name
            = stripSpreadsheetExt file.name
        ∧ (setFileUpdater file msgId now s).file = some file
        ∧ (setFileUpdater file msgId now s).fileName = some file.name
        ∧ (setFileUpdater file msgId now s).messages
            = s.messages ++ [fileLoadedMsg file msgId now])
    ∧ (fileLoadedMsg file msgId now).role = "ai"
    ∧ strIncludes (fileLoadedContent file) file.name = true
    ∧ strIncludes (fileLoadedContent file) file.selectedSheet = true
    ∧ strIncludes (fileLoadedContent file) (toString file.rowCount) = true
    ∧ strIncludes (fileLoadedContent file)
        (String.intercalate ", " (file.headers.take 4)) = true
    ∧ (∃ pre post : String,
        fileLoadedContent file
          = pre ++ String.intercalate ", " (file.headers.take 4)
              ++ (if file.headers.length > 4 then "..." else "") ++ post
        ∧ ((if file.headers.length > 4 then "..." else "") = "..."
            ↔ 4 < file.headers.length))
    ∧ stripSpreadsheetExt "Q3-Report.XLSX" = "Q3-Report" := by
  refine ⟨rfl, fun s => ⟨rfl, rfl, rfl, rfl⟩, rfl, ?_, ?_, ?_, ?_, ?_,
    by decide⟩
  · simp only [fileLoadedContent]
    repeat first
      | (apply strIncludes_append_right
         exact strIncludes_refl _)
      | apply strIncludes_append_left
  · simp only [fileLoadedContent]
    repeat first
      | (apply strIncludes_append_right
         exact strIncludes_refl _)
      | apply strIncludes_append_left
  · simp only [fileLoadedContent]
    repeat first
      | (apply strIncludes_append_right
         exact strIncludes_refl _)
      | apply strIncludes_append_left
  · simp only [fileLoadedContent]
    repeat first
      | (apply strIncludes_append_right
         exact strIncludes_refl _)
      | apply strIncludes_append_left
  · refine ⟨"📁 **" ++ file.name ++
      "** loaded successfully!\n\n• Sheet: **" ++ file.selectedSheet ++
      "**\n• Rows: **" ++ toString file.rowCount ++
      "**\n• Columns: **" ++ toString file.headers.length ++ "** (",
      ")\n\nI" ++ apos ++
        "m ready to analyze your data. What would you like to know?",
      ?_, ?_⟩
    · simp [fileLoadedContent, String.append_assoc]
    · split_ifs with h
      · simpa using h
      · constructor
        · intro habs
          exact absurd habs (by decide)
        · intro hlt
          exact absurd hlt h

/-- C7 witness: the extension of Q3-Report.XLSX is stripped
case-insensitively. -/
theorem setFile_binds_renames_and_summarizes_witness :
    stripSpreadsheetExt "Q3-Report.XLSX" = "Q3-Report" :=
  (setFile_binds_renames_and_summarizes sampleFile "m1" 0
    initialState).2.2.2.2.2.2.2.2
